import Mathlib

/-!
Shallow embedding of the booking data-freshness core of the repository:
`src/services/BookingService.ts` (DataSource: remote fetch + in-process memo),
`src/cache/BookingCache.ts` (DurableCache over AsyncStorage),
`src/managers/BookingManager.ts` (FreshnessManager: orchestration, coalescing,
observer notification).

Modelling conventions:
* JS timestamps (`Date.now()`) are `Nat` milliseconds passed explicitly.
  `now - t` on JS numbers compared with `< ttl` / `>= ttl` agrees with Nat
  truncated subtraction because the windows are positive.
* Thrown JS values are `ErrVal`; the constructor `ErrVal.error` is an
  `Error` instance (so `e instanceof Error` is `ErrVal.error _`), while
  `ErrVal.other` is any non-`Error` thrown value.
* `AsyncStorage` holds at most the single entry under `CACHE_KEY`; it is
  modelled as the `BookingCache` record together with fault flags saying
  whether `getItem` / `setItem` / `removeItem` reject.  A stored string that
  fails `JSON.parse` is `StoredVal.corrupt`.
* Fallible operations return `Except (ErrVal × σ) (α × σ)` threading the
  mutated store; `try`/`catch` in the source becomes a `match` on that value.
* The remote fetch (`fetchFromDataSource`, a mock HTTP call) is out of scope
  per the specification and is passed in as its outcome
  `remote : Except ErrVal ShipInfo`; in the shipped code it always succeeds
  with `mockData` (see `loadMockData` below) and only ever rejects with an
  `Error` instance.
-/

/-- Location (src/types/booking.ts). -/
structure Location where
  code : String
  displayName : String
  url : String
deriving DecidableEq, Repr

/-- Origin and destination pair (src/types/booking.ts). -/
structure OriginAndDestinationPair where
  origin : Location
  originCity : String
  destination : Location
  destinationCity : String
deriving DecidableEq, Repr

/-- Segment information (src/types/booking.ts). -/
structure Segment where
  id : Nat
  originAndDestinationPair : OriginAndDestinationPair
deriving DecidableEq, Repr

/-- Ship information payload (src/types/booking.ts). -/
structure ShipInfo where
  shipReference : String
  shipToken : String
  canIssueTicketChecking : Bool
  expiryTime : String
  duration : Nat
  segments : List Segment
deriving DecidableEq, Repr

/-- The persisted envelope `{ data, timestamp }` (src/types/booking.ts `CachedData`). -/
structure CachedData where
  data : ShipInfo
  timestamp : Nat
deriving DecidableEq, Repr

/-- A thrown JS value: either an `Error` instance carrying its message, or a
non-`Error` value (anything else a promise could reject with). -/
inductive ErrVal where
  | error (msg : String)
  | other (tag : Nat)
deriving DecidableEq, Repr

/-- Observable pipeline actions, used to state which collaborators a manager
operation contacts and in which order. -/
inductive Event where
  | serviceCall
  | remoteFetch
  | durableWrite
  | durableRead (ignoreExpiry : Bool)
deriving DecidableEq, Repr

/-- The constant returned by `BookingService.loadMockData` (the shipped
stand-in for the remote endpoint). -/
def mockData : ShipInfo :=
  { shipReference := "ABCDEF"
    shipToken := "AAAABBBCCCCDDD"
    canIssueTicketChecking := false
    expiryTime := "1722409261"
    duration := 2430
    segments :=
      [ { id := 1
          originAndDestinationPair :=
            { origin := { code := "AAA", displayName := "AAA DisplayName", url := "www.ship.com" }
              originCity := "BBB"
              destination := { code := "BBB", displayName := "BBB DisplayName", url := "www.ship.com" }
              destinationCity := "AAA" } }
      , { id := 2
          originAndDestinationPair :=
            { origin := { code := "BBB", displayName := "BBB DisplayName", url := "www.ship.com" }
              originCity := "BBB"
              destination := { code := "CCC", displayName := "CCC DisplayName", url := "www.ship.com" }
              destinationCity := "CCC" } } ] }

/-! ## DurableCache: src/cache/BookingCache.ts -/

/-- What `AsyncStorage.getItem(CACHE_KEY)` deserializes to: a well-formed
`CachedData` envelope, or a string on which `JSON.parse` throws. -/
inductive StoredVal where
  | valid (cd : CachedData)
  | corrupt
deriving DecidableEq, Repr

/-- The durable store visible to `BookingCache`: the entry under the fixed
`CACHE_KEY` plus fault flags for the three AsyncStorage primitives. -/
structure BookingCache where
  item : Option StoredVal
  getFails : Bool
  setFails : Bool
  removeFails : Bool
deriving DecidableEq, Repr

/-- `CACHE_DURATION` of BookingCache: 30 minutes in milliseconds. -/
def CACHE_DURATION : Nat := 30 * 60 * 1000

/-- `BookingCache.isCacheExpired`: `now - timestamp >= this.CACHE_DURATION`. -/
def isCacheExpired (now timestamp : Nat) : Bool :=
  decide (CACHE_DURATION ≤ now - timestamp)

/-- `BookingCache.clearCache`: `AsyncStorage.removeItem`; on rejection throws
`new Error('Failed to clear ship info cache')` leaving the store unchanged. -/
def BookingCache.clearCache (s : BookingCache) : Except (ErrVal × BookingCache) BookingCache :=
  if s.removeFails then .error (.error "Failed to clear ship info cache", s)
  else .ok { s with item := none }

/-- `BookingCache.saveToCache`: serializes `{ data, timestamp: Date.now() }`
and `setItem`s it; on rejection throws
`new Error('Failed to save ship info data to cache')`. -/
def BookingCache.saveToCache (s : BookingCache) (shipInfo : ShipInfo) (now : Nat) :
    Except (ErrVal × BookingCache) BookingCache :=
  if s.setFails then .error (.error "Failed to save ship info data to cache", s)
  else .ok { s with item := some (.valid { data := shipInfo, timestamp := now }) }

/-- The `try` block of `BookingCache.getFromCache`: `getItem`, `JSON.parse`,
expiry check (with `clearCache` on expiry), returning the snapshot or `null`.
Any throw (storage read failure, parse failure, or a failing `clearCache`
inside the expiry branch) escapes as `.error`. -/
def BookingCache.getFromCacheTry (s : BookingCache) (ignoreExpiry : Bool) (now : Nat) :
    Except (ErrVal × BookingCache) (Option ShipInfo × BookingCache) :=
  if s.getFails then .error (.error "getItem rejected", s)
  else
    match s.item with
    | none => .ok (none, s)
    | some .corrupt => .error (.error "JSON.parse threw", s)
    | some (.valid cd) =>
      if !ignoreExpiry && isCacheExpired now cd.timestamp then
        match s.clearCache with
        | .ok s' => .ok (none, s')
        | .error es => .error es
      else .ok (some cd.data, s)

/-- `BookingCache.getFromCache`: the `try` block above wrapped in the source's
`catch`, which attempts `clearCache` once more, swallows that clear's own
failure, and returns `null`.  Total: a read never throws. -/
def BookingCache.getFromCache (s : BookingCache) (ignoreExpiry : Bool) (now : Nat) :
    Option ShipInfo × BookingCache :=
  match s.getFromCacheTry ignoreExpiry now with
  | .ok r => r
  | .error (_, s') =>
    match s'.clearCache with
    | .ok s'' => (none, s'')
    | .error (_, s'') => (none, s'')

/-- `BookingCache.getCacheMetadata`: reads and parses the entry, returning just
its timestamp; every failure is caught and returns `null`. -/
def BookingCache.getCacheMetadata (s : BookingCache) : Option Nat :=
  if s.getFails then none
  else
    match s.item with
    | none => none
    | some .corrupt => none
    | some (.valid cd) => some cd.timestamp

/-! ## DataSource: src/services/BookingService.ts -/

/-- In-process memo state of `BookingService`. -/
structure BookingService where
  lastFetchedTime : Option Nat
  cachedResponse : Option ShipInfo
deriving DecidableEq, Repr

/-- `dataTTL` of BookingService: 30 minutes in milliseconds. -/
def dataTTL : Nat := 30 * 60 * 1000

/-- `BookingService.clearCache`: drops the memo and its timestamp. -/
def BookingService.clearCache (_svc : BookingService) : BookingService :=
  { lastFetchedTime := none, cachedResponse := none }

/-- Result of a `getBookings` call: the promise outcome, the updated service
memo, and the pipeline events (`serviceCall` for being invoked at all,
`remoteFetch` if the remote/mock endpoint was contacted). -/
structure SvcOut where
  result : Except ErrVal ShipInfo
  svc : BookingService
  events : List Event

/-- The non-memo path of `BookingService.getBookings`: contact the remote
source (outcome `remote`); on success replace memo and timestamp (with the
completion time `tEnd`); on failure return the existing memo even if expired,
or rethrow when none exists. -/
def getBookingsFetch (svc : BookingService) (tEnd : Nat)
    (remote : Except ErrVal ShipInfo) : SvcOut :=
  match remote with
  | .ok r => ⟨.ok r, { lastFetchedTime := some tEnd, cachedResponse := some r }, [.serviceCall, .remoteFetch]⟩
  | .error e =>
    match svc.cachedResponse with
    | some c => ⟨.ok c, svc, [.serviceCall, .remoteFetch]⟩
    | none => ⟨.error e, svc, [.serviceCall, .remoteFetch]⟩

/-- `BookingService.getBookings(forceRefresh)`.  The source first checks
`this.cachedResponse && this.lastFetchedTime && !forceRefresh` (note JS
truthiness: a timestamp of `0` is falsy) and then, inside, the TTL
`now - lastFetchedTime < dataTTL`; both failing paths fall through to the
remote fetch, so the two nested conditionals are combined into one guard.
`now` is the time of the freshness check, `tEnd` the time the awaited fetch
completes. -/
def BookingService.getBookings (svc : BookingService) (force : Bool) (now tEnd : Nat)
    (remote : Except ErrVal ShipInfo) : SvcOut :=
  match svc.cachedResponse, svc.lastFetchedTime with
  | some c, some t =>
    if t != 0 && !force && decide (now - t < dataTTL) then ⟨.ok c, svc, [.serviceCall]⟩
    else getBookingsFetch svc tEnd remote
  | _, _ => getBookingsFetch svc tEnd remote

/-- The guard under which `getBookings` serves its memo without fetching. -/
def memoServed (svc : BookingService) (force : Bool) (now : Nat) : Bool :=
  match svc.cachedResponse, svc.lastFetchedTime with
  | some _, some t => t != 0 && !force && decide (now - t < dataTTL)
  | _, _ => false

theorem getBookings_of_not_memoServed (svc : BookingService) (force : Bool) (now tEnd : Nat)
    (remote : Except ErrVal ShipInfo) (h : memoServed svc force now = false) :
    svc.getBookings force now tEnd remote = getBookingsFetch svc tEnd remote := by
  unfold BookingService.getBookings
  unfold memoServed at h
  rcases hc : svc.cachedResponse with _ | c <;> rcases ht : svc.lastFetchedTime with _ | t <;>
    simp_all

/-! ## FreshnessManager: src/managers/BookingManager.ts -/

/-- `ShipInfoManagerState` (src/types/booking.ts). -/
structure ShipInfoManagerState where
  isLoading : Bool
  error : Option ErrVal
  shipInfo : Option ShipInfo
  lastUpdated : Option Nat
deriving DecidableEq, Repr

/-- A `Partial<ShipInfoManagerState>` argument to `setState`: each field is
present (`some v`, possibly explicitly setting the JS value `null`) or
omitted. -/
structure StatePatch where
  isLoading : Option Bool := none
  error : Option (Option ErrVal) := none
  shipInfo : Option (Option ShipInfo) := none
  lastUpdated : Option (Option Nat) := none
deriving DecidableEq, Repr

/-- The spread `{ ...this.state, ...newState }`. -/
def applyPatch (st : ShipInfoManagerState) (p : StatePatch) : ShipInfoManagerState :=
  { isLoading := p.isLoading.getD st.isLoading
    error := p.error.getD st.error
    shipInfo := p.shipInfo.getD st.shipInfo
    lastUpdated := p.lastUpdated.getD st.lastUpdated }

/-- The source's change detection
`Object.entries(newState).some(([key, value]) => this.state[key] !== value)`:
a provided field counts as changed when it differs from the current value. -/
def patchChanges (st : ShipInfoManagerState) (p : StatePatch) : Bool :=
  (match p.isLoading with | some b => decide (b ≠ st.isLoading) | none => false) ||
  (match p.error with | some e => decide (e ≠ st.error) | none => false) ||
  (match p.shipInfo with | some s => decide (s ≠ st.shipInfo) | none => false) ||
  (match p.lastUpdated with | some t => decide (t ≠ st.lastUpdated) | none => false)

/-- `BookingManager.setState`: if no provided field actually changed, return
unchanged and schedule nothing; otherwise apply the spread and schedule an
asynchronous notification (the returned `Bool`; the source defers delivery
past the mutating operation's synchronous work with
`Promise.resolve().then(...)`). -/
def setState (st : ShipInfoManagerState) (p : StatePatch) : ShipInfoManagerState × Bool :=
  if patchChanges st p then (applyPatch st p, true) else (st, false)

/-- The deferred notification: each registered callback receives the full
recomputed state (`callback(this.getState())`). Callbacks are identified by
opaque handles. -/
def notifyCallbacks (cbs : List Nat) (st : ShipInfoManagerState) : List (Nat × ShipInfoManagerState) :=
  cbs.map (fun cb => (cb, st))

theorem setState_fst (st : ShipInfoManagerState) (p : StatePatch) :
    (setState st p).1 = applyPatch st p := by
  unfold setState
  by_cases h : patchChanges st p = true
  · simp [h]
  · simp only [Bool.not_eq_true] at h
    simp only [h]
    unfold patchChanges at h
    rcases hL : p.isLoading with _ | b <;> rcases hE : p.error with _ | e <;>
      rcases hS : p.shipInfo with _ | s <;> rcases hU : p.lastUpdated with _ | u <;>
      simp_all [applyPatch]

/-- `asError e msg` is the source idiom
`e instanceof Error ? e : new Error(msg)`. -/
def asError (e : ErrVal) (msg : String) : ErrVal :=
  match e with
  | .error m => .error m
  | .other _ => .error msg

/-- `BookingManager.handleError`: record `{ isLoading: false, error }` in the
state and return the error to be rethrown. -/
def handleError (st : ShipInfoManagerState) (e : ErrVal) (msg : String) :
    ShipInfoManagerState × ErrVal :=
  ((setState st { isLoading := some false, error := some (some (asError e msg)) }).1,
   asError e msg)

/-- Manager fields relevant to the load pipeline (`state`, the configuration
flag `refreshOnLoad`, and the owned `BookingService` memo).  `activeRequest`
is treated separately by the in-flight model `InFlight` below, so the
sequential pipeline functions describe a call that is not coalesced. -/
structure BookingManager where
  state : ShipInfoManagerState
  refreshOnLoad : Bool
  service : BookingService
deriving Repr

/-- Result of a manager load/refresh call: the promise outcome, the manager,
the durable store, and the ordered pipeline events. -/
structure LoadOut where
  result : Except ErrVal ShipInfo
  mgr : BookingManager
  cache : BookingCache
  events : List Event

/-- The outer `catch` of `performLoadBookings`:
`throw this.handleError(error, 'load')`. -/
def loadOuterCatch (m : BookingManager) (c : BookingCache) (evs : List Event) (e : ErrVal) : LoadOut :=
  let r := handleError m.state e "Failed to load ship info"
  ⟨.error r.2, { m with state := r.1 }, c, evs⟩

/-- The `catch (serviceError)` block of `performLoadBookings`: when the
authoritative state holds no snapshot, read the durable cache ignoring expiry;
serve it as a stale-but-available success (recording the original error),
otherwise rethrow to the outer catch. -/
def loadServiceCatch (m : BookingManager) (c : BookingCache) (tEnd : Nat)
    (evs : List Event) (e : ErrVal) : LoadOut :=
  if m.state.shipInfo = none then
    match c.getFromCache true tEnd with
    | (some fb, c') =>
      ⟨.ok fb,
       { m with state := (setState m.state
           { shipInfo := some (some fb), isLoading := some false,
             error := some (some (asError e "Failed to load fresh ship info")) }).1 },
       c', evs ++ [.durableRead true]⟩
    | (none, c') => loadOuterCatch m c' (evs ++ [.durableRead true]) e
  else loadOuterCatch m c evs e

/-- `BookingManager.performLoadBookings` with the `this.refreshOnLoad` reads
threaded as the explicit parameter `force` (the configuration flag is the only
thing those reads depend on; `performLoadBookings` below instantiates it).
Order follows the source: fast path; `getBookings(force)`; `saveToCache`;
`setState`; with the two catch blocks above. -/
def performLoadWith (force : Bool) (m : BookingManager) (c : BookingCache) (now tEnd : Nat)
    (remote : Except ErrVal ShipInfo) : LoadOut :=
  match (if !force then m.state.shipInfo else none) with
  | some s =>
    ⟨.ok s,
     { m with state := (setState m.state { isLoading := some false, lastUpdated := some (some now) }).1 },
     c, []⟩
  | none =>
    match m.service.getBookings force now tEnd remote with
    | ⟨.ok newShip, svc', evs⟩ =>
      match c.saveToCache newShip tEnd with
      | .ok c' =>
        ⟨.ok newShip,
         { m with service := svc',
                  state := (setState m.state
             { shipInfo := some (some newShip), isLoading := some false,
               lastUpdated := some (some tEnd) }).1 },
         c', evs ++ [.durableWrite]⟩
      | .error (e, c') =>
        loadServiceCatch { m with service := svc' } c' tEnd (evs ++ [.durableWrite]) e
    | ⟨.error e, svc', evs⟩ => loadServiceCatch { m with service := svc' } c tEnd evs e

/-- `BookingManager.performLoadBookings`. -/
def performLoadBookings (m : BookingManager) (c : BookingCache) (now tEnd : Nat)
    (remote : Except ErrVal ShipInfo) : LoadOut :=
  performLoadWith m.refreshOnLoad m c now tEnd remote

/-- `BookingManager.loadBookings` for a call that is not coalesced
(`activeRequest` is `null`; the coalesced path is the `InFlight` model below):
`setState({ isLoading: true, error: null })`, then run the pipeline. -/
def loadBookings (m : BookingManager) (c : BookingCache) (now tEnd : Nat)
    (remote : Except ErrVal ShipInfo) : LoadOut :=
  performLoadBookings
    { m with state := (setState m.state { isLoading := some true, error := some none }).1 }
    c now tEnd remote

/-- `BookingManager.refreshBookings`: clear the service memo, temporarily set
`refreshOnLoad` to `true`, reuse `loadBookings`, and restore the flag in the
`finally`. -/
def refreshBookings (m : BookingManager) (c : BookingCache) (now tEnd : Nat)
    (remote : Except ErrVal ShipInfo) : LoadOut :=
  let m1 := { m with service := m.service.clearCache, refreshOnLoad := true }
  let out := loadBookings m1 c now tEnd remote
  { out with mgr := { out.mgr with refreshOnLoad := m.refreshOnLoad } }

/-- Modelled from the spec: `refresh = clearMemo(); load(forceRefresh=true)` —
the load procedure with an explicit forced-refresh argument instead of the
source's temporary mutation of the `refreshOnLoad` configuration field. -/
def refreshSpec (m : BookingManager) (c : BookingCache) (now tEnd : Nat)
    (remote : Except ErrVal ShipInfo) : LoadOut :=
  performLoadWith true
    { m with service := m.service.clearCache,
             state := (setState m.state { isLoading := some true, error := some none }).1 }
    c now tEnd remote

/-- `BookingManager.clearAllCache`: clear the service memo, then the durable
entry (rethrowing its failure before any state change), then reset
`shipInfo`/`lastUpdated` to `null`. -/
def clearAllCache (m : BookingManager) (c : BookingCache) :
    Except (ErrVal × BookingManager × BookingCache) (BookingManager × BookingCache) :=
  let m1 := { m with service := m.service.clearCache }
  match c.clearCache with
  | .error (e, c') => .error (e, m1, c')
  | .ok c' =>
    .ok ({ m1 with state := (setState m1.state { shipInfo := some none, lastUpdated := some none }).1 }, c')

/-! ## In-flight coalescing (src/managers/BookingManager.ts, `activeRequest`)

JS is single threaded: a `loadBookings()` invocation runs synchronously from
the `if (this.activeRequest) return this.activeRequest;` check through the
assignment `this.activeRequest = this.performLoadBookings()`, so no other
call can interleave between the check and the assignment.  `loadCall` is that
synchronous prefix: it either returns the stored in-flight promise, or starts
a new pipeline (a fresh promise identifier, recorded in `started`) and stores
it.  The `finally { this.activeRequest = null }` runs only when the promise
settles; `resolveActive` is that step, and a sequence of calls "issued before
the in-flight load resolves" is a sequence of `loadCall`s with no
`resolveActive` in between. -/

/-- Coalescing state of the manager: the stored in-flight promise, a fresh
promise supply, and the pipelines started so far. -/
structure InFlight where
  activeRequest : Option Nat
  nextPromise : Nat
  started : List Nat
deriving DecidableEq, Repr

/-- The synchronous prefix of `loadBookings`: return the in-flight promise if
any, otherwise start one pipeline and store its promise. -/
def loadCall (s : InFlight) : InFlight × Nat :=
  match s.activeRequest with
  | some p => (s, p)
  | none =>
    (⟨some s.nextPromise, s.nextPromise + 1, s.started ++ [s.nextPromise]⟩, s.nextPromise)

/-- The `finally` of `loadBookings`: the in-flight promise settled. -/
def resolveActive (s : InFlight) : InFlight :=
  { s with activeRequest := none }

/-- `n` consecutive `loadBookings` calls with no settlement in between,
returning the promises handed to the callers. -/
def loadCalls : Nat → InFlight → InFlight × List Nat
  | 0, s => (s, [])
  | n + 1, s =>
    let r := loadCall s
    let rest := loadCalls n r.1
    (rest.1, r.2 :: rest.2)

theorem loadCalls_of_active (n : Nat) (s : InFlight) (p : Nat)
    (h : s.activeRequest = some p) : loadCalls n s = (s, List.replicate n p) := by
  induction n with
  | zero => simp [loadCalls]
  | succ k ih => simp [loadCalls, loadCall, h, ih, List.replicate]

/-! ## Object identity of `getState()` (src/managers/BookingManager.ts)

`getState()` is `return { ...this.state };`.  To state the aliasing claim we
model JS object identity with a small heap: references are `Nat`, `cells`
maps allocated references to `ShipInfoManagerState` records, and `next` is
the allocation counter (every live reference is below it).  Mutating a
top-level field of an object is `ObjHeap.write` of an updated record at its
reference. -/

structure ObjHeap where
  cells : List (Nat × ShipInfoManagerState)
  next : Nat
deriving DecidableEq, Repr

/-- Dereference: the record held at reference `r`, if allocated. -/
def ObjHeap.lookup (h : ObjHeap) (r : Nat) : Option ShipInfoManagerState :=
  (h.cells.find? (fun cell => cell.1 == r)).map (fun cell => cell.2)

/-- Allocate a fresh object holding the record `v`; returns the new heap and
the fresh reference. -/
def ObjHeap.alloc (h : ObjHeap) (v : ShipInfoManagerState) : ObjHeap × Nat :=
  (⟨(h.next, v) :: h.cells, h.next + 1⟩, h.next)

/-- Overwrite the object at reference `r` (field mutation writes the updated
record). -/
def ObjHeap.write (h : ObjHeap) (r : Nat) (v : ShipInfoManagerState) : ObjHeap :=
  { h with cells := h.cells.map (fun cell => if cell.1 = r then (r, v) else cell) }

/-- `BookingManager.getState`: read the record behind `this.state` (held at
reference `self`) and return a freshly allocated shallow copy of it. -/
def getState (h : ObjHeap) (self : Nat) : ObjHeap × Nat :=
  h.alloc ((h.lookup self).getD ⟨false, none, none, none⟩)

theorem ObjHeap.lookup_write_of_ne (h : ObjHeap) (r s : Nat)
    (v : ShipInfoManagerState) (hne : s ≠ r) :
    (h.write r v).lookup s = h.lookup s := by
  unfold ObjHeap.write ObjHeap.lookup
  simp only
  induction h.cells with
  | nil => rfl
  | cons a l ih =>
    simp only [List.map_cons]
    by_cases has : a.1 = s
    · have har : ¬(a.1 = r) := fun hh => hne (has ▸ hh)
      rw [if_neg har, List.find?_cons_of_pos _ (by simp [has]),
        List.find?_cons_of_pos _ (by simp [has])]
    · by_cases har : a.1 = r
      · rw [if_pos har, List.find?_cons_of_neg _ (by simp [beq_iff_eq]; omega),
          List.find?_cons_of_neg _ (by simp [beq_iff_eq, has])]
        exact ih
      · rw [if_neg har, List.find?_cons_of_neg _ (by simp [beq_iff_eq, has]),
          List.find?_cons_of_neg _ (by simp [beq_iff_eq, has])]
        exact ih

/-! ## Claim theorems -/

/-- Claim C4: for a durable entry `{S, t}` (with a working store), a fresh
read (`now - t < CACHE_DURATION`) returns `S` and leaves the entry in place;
an expired read with `ignoreExpiry = false` deletes the entry and returns
absent, so a subsequent `getCacheMetadata` returns absent; and with
`ignoreExpiry = true` the snapshot is returned regardless of age. -/
theorem getFromCache_expiry_behavior (s : BookingCache) (S : ShipInfo) (t now : Nat)
    (hitem : s.item = some (.valid ⟨S, t⟩)) (hget : s.getFails = false)
    (hrem : s.removeFails = false) :
    (now - t < CACHE_DURATION → s.getFromCache false now = (some S, s)) ∧
    (CACHE_DURATION ≤ now - t →
      s.getFromCache false now = (none, { s with item := none }) ∧
      BookingCache.getCacheMetadata { s with item := none } = none) ∧
    s.getFromCache true now = (some S, s) := by
  refine ⟨?_, ?_, ?_⟩
  · intro hfresh
    simp [BookingCache.getFromCache, BookingCache.getFromCacheTry, hitem, hget,
      isCacheExpired, Nat.not_le.2 hfresh]
  · intro hexp
    refine ⟨?_, ?_⟩
    · simp [BookingCache.getFromCache, BookingCache.getFromCacheTry, hitem, hget,
        isCacheExpired, hexp, BookingCache.clearCache, hrem]
    · simp [BookingCache.getCacheMetadata, hget]
  · simp [BookingCache.getFromCache, BookingCache.getFromCacheTry, hitem, hget]

/-- Witness for C4 at a concrete store: a fresh read at `now = 2000` serves
the entry saved at `t = 1000`, an expired read at
`now = 1000 + CACHE_DURATION` evicts it and metadata is then absent, and an
expiry-ignoring read still serves it. -/
theorem getFromCache_expiry_behavior_witness :
    BookingCache.getFromCache ⟨some (.valid ⟨mockData, 1000⟩), false, false, false⟩ false 2000
      = (some mockData, ⟨some (.valid ⟨mockData, 1000⟩), false, false, false⟩) ∧
    BookingCache.getFromCache ⟨some (.valid ⟨mockData, 1000⟩), false, false, false⟩ false (1000 + CACHE_DURATION)
      = (none, ⟨none, false, false, false⟩) ∧
    BookingCache.getCacheMetadata ⟨none, false, false, false⟩ = none ∧
    BookingCache.getFromCache ⟨some (.valid ⟨mockData, 1000⟩), false, false, false⟩ true (1000 + CACHE_DURATION)
      = (some mockData, ⟨some (.valid ⟨mockData, 1000⟩), false, false, false⟩) := by
  have h := getFromCache_expiry_behavior ⟨some (.valid ⟨mockData, 1000⟩), false, false, false⟩
    mockData 1000 2000 rfl rfl rfl
  have h' := getFromCache_expiry_behavior ⟨some (.valid ⟨mockData, 1000⟩), false, false, false⟩
    mockData 1000 (1000 + CACHE_DURATION) rfl rfl rfl
  exact ⟨h.1 (by decide), (h'.2.1 (by simp)).1, (h'.2.1 (by simp)).2, h'.2.2⟩

/-- Claim C5: a corrupted stored entry never makes `getFromCache` throw: the
read is treated as absent (`null`), the corrupted entry is cleared as a side
effect, and a failure of that clear itself is swallowed (the store is then
left as it was).  Totality of `BookingCache.getFromCache` (it returns a plain
pair, every internal throw being caught) is the never-throws part. -/
theorem getFromCache_corruption_safe (s : BookingCache) (ig : Bool) (now : Nat)
    (hget : s.getFails = false) (hitem : s.item = some .corrupt) :
    (s.removeFails = false → s.getFromCache ig now = (none, { s with item := none })) ∧
    (s.removeFails = true → s.getFromCache ig now = (none, s)) := by
  constructor <;> intro hrem <;>
    simp [BookingCache.getFromCache, BookingCache.getFromCacheTry, hget, hitem,
      BookingCache.clearCache, hrem]

/-- Witness for C5: a corrupted entry with a working `removeItem` is cleared
and read as absent; with a failing `removeItem` the clear's failure is
swallowed and the read still returns absent. -/
theorem getFromCache_corruption_safe_witness :
    BookingCache.getFromCache ⟨some .corrupt, false, false, false⟩ false 5
      = (none, ⟨none, false, false, false⟩) ∧
    BookingCache.getFromCache ⟨some .corrupt, false, false, true⟩ false 5
      = (none, ⟨some .corrupt, false, false, true⟩) := by
  exact ⟨(getFromCache_corruption_safe _ false 5 rfl rfl).1 rfl,
         (getFromCache_corruption_safe _ false 5 rfl rfl).2 rfl⟩

/-- Claim C6: `getBookings(forceRefresh)` serves a live memo (memo and
timestamp present, non-expired, no force) without contacting the remote
source; otherwise it fetches and on success replaces memo and timestamp and
returns the new snapshot; on remote failure it returns the existing memo even
if expired, and fails — propagating the error produced by the fetch — exactly
when no memo exists. -/
theorem getBookings_memo_and_failure (svc : BookingService) (force : Bool) (now tEnd : Nat)
    (remote : Except ErrVal ShipInfo) :
    (∀ c t, svc.cachedResponse = some c → svc.lastFetchedTime = some t → 0 < t →
      force = false → now - t < dataTTL →
      svc.getBookings force now tEnd remote = ⟨.ok c, svc, [.serviceCall]⟩) ∧
    (∀ r, memoServed svc force now = false → remote = .ok r →
      svc.getBookings force now tEnd remote =
        ⟨.ok r, { lastFetchedTime := some tEnd, cachedResponse := some r },
         [.serviceCall, .remoteFetch]⟩) ∧
    (∀ e c, memoServed svc force now = false → remote = .error e →
      svc.cachedResponse = some c →
      svc.getBookings force now tEnd remote = ⟨.ok c, svc, [.serviceCall, .remoteFetch]⟩) ∧
    (∀ e, memoServed svc force now = false → remote = .error e →
      svc.cachedResponse = none →
      svc.getBookings force now tEnd remote = ⟨.error e, svc, [.serviceCall, .remoteFetch]⟩) := by
  refine ⟨?_, ?_, ?_, ?_⟩
  · intro c t hc ht hpos hforce hfresh
    have ht0 : (t != 0) = true := by simp [bne_iff_ne]; omega
    simp [BookingService.getBookings, hc, ht, hforce, ht0, hfresh]
  · intro r hm hr
    rw [getBookings_of_not_memoServed _ _ _ _ _ hm]
    simp [getBookingsFetch, hr]
  · intro e c hm hr hc
    rw [getBookings_of_not_memoServed _ _ _ _ _ hm]
    simp [getBookingsFetch, hr, hc]
  · intro e hm hr hc
    rw [getBookings_of_not_memoServed _ _ _ _ _ hm]
    simp [getBookingsFetch, hr, hc]

/-- Witness for C6: a live memo is served without a fetch; a forced call
fetches and replaces the memo; a failing remote with an (expired) memo is a
degraded success; a failing remote with no memo propagates the fetch error. -/
theorem getBookings_memo_and_failure_witness :
    BookingService.getBookings ⟨some 100, some mockData⟩ false 200 300 (.error (.error "net"))
      = ⟨.ok mockData, ⟨some 100, some mockData⟩, [.serviceCall]⟩ ∧
    BookingService.getBookings ⟨some 100, some mockData⟩ true 200 300 (.ok mockData)
      = ⟨.ok mockData, ⟨some 300, some mockData⟩, [.serviceCall, .remoteFetch]⟩ ∧
    BookingService.getBookings ⟨some 100, some mockData⟩ false (100 + dataTTL) 300 (.error (.error "net"))
      = ⟨.ok mockData, ⟨some 100, some mockData⟩, [.serviceCall, .remoteFetch]⟩ ∧
    BookingService.getBookings ⟨none, none⟩ false 200 300 (.error (.error "net"))
      = ⟨.error (.error "net"), ⟨none, none⟩, [.serviceCall, .remoteFetch]⟩ := by
  refine ⟨?_, ?_, ?_, ?_⟩
  · exact (getBookings_memo_and_failure ⟨some 100, some mockData⟩ false 200 300
      (.error (.error "net"))).1 mockData 100 rfl rfl (by decide) rfl (by decide)
  · exact (getBookings_memo_and_failure ⟨some 100, some mockData⟩ true 200 300
      (.ok mockData)).2.1 mockData (by decide) rfl
  · exact (getBookings_memo_and_failure ⟨some 100, some mockData⟩ false (100 + dataTTL) 300
      (.error (.error "net"))).2.2.1 (.error "net") mockData (by simp [memoServed, dataTTL]) rfl rfl
  · exact (getBookings_memo_and_failure ⟨none, none⟩ false 200 300
      (.error (.error "net"))).2.2.2 (.error "net") (by decide) rfl rfl

theorem patchChanges_eq_false_iff (st : ShipInfoManagerState) (p : StatePatch) :
    patchChanges st p = false ↔
      ((p.isLoading = none ∨ p.isLoading = some st.isLoading) ∧
       (p.error = none ∨ p.error = some st.error) ∧
       (p.shipInfo = none ∨ p.shipInfo = some st.shipInfo) ∧
       (p.lastUpdated = none ∨ p.lastUpdated = some st.lastUpdated)) := by
  unfold patchChanges
  rcases hL : p.isLoading with _ | b <;> rcases hE : p.error with _ | e <;>
    rcases hS : p.shipInfo with _ | s <;> rcases hU : p.lastUpdated with _ | u <;>
    simp <;> tauto

/-- Claim C9: a `setState` whose requested partial update changes no field is
a no-op — the state is unchanged and no notification is scheduled; when some
field differs, the patched state is installed, a (deferred) notification is
scheduled, and its delivery hands every subscribed callback the full
recomputed `ShipInfoManagerState`.  The deferral itself
(`Promise.resolve().then`) is modelled structurally: `setState` only returns
the schedule flag, and `notifyCallbacks` is the later delivery step, so
delivery cannot happen during the mutating operation's synchronous work. -/
theorem setState_dedup_and_notify (st : ShipInfoManagerState) (p : StatePatch)
    (cbs : List Nat) :
    (((p.isLoading = none ∨ p.isLoading = some st.isLoading) ∧
      (p.error = none ∨ p.error = some st.error) ∧
      (p.shipInfo = none ∨ p.shipInfo = some st.shipInfo) ∧
      (p.lastUpdated = none ∨ p.lastUpdated = some st.lastUpdated)) →
      setState st p = (st, false)) ∧
    (¬ ((p.isLoading = none ∨ p.isLoading = some st.isLoading) ∧
        (p.error = none ∨ p.error = some st.error) ∧
        (p.shipInfo = none ∨ p.shipInfo = some st.shipInfo) ∧
        (p.lastUpdated = none ∨ p.lastUpdated = some st.lastUpdated)) →
      setState st p = (applyPatch st p, true) ∧
      notifyCallbacks cbs (setState st p).1 = cbs.map (fun cb => (cb, applyPatch st p))) := by
  constructor
  · intro hno
    have hch : patchChanges st p = false := (patchChanges_eq_false_iff st p).2 hno
    simp [setState, hch]
  · intro hyes
    have hch : patchChanges st p = true := by
      rcases hb : patchChanges st p with _ | _
      · exact absurd ((patchChanges_eq_false_iff st p).1 hb) hyes
      · rfl
    refine ⟨by simp [setState, hch], ?_⟩
    rw [setState_fst]
    rfl

/-- Witness for C9: patching `isLoading` to its current value changes nothing
and schedules no notification; patching it to the opposite value installs the
new state and the delivery hands each of the two subscribers the full new
state. -/
theorem setState_dedup_and_notify_witness :
    setState ⟨false, none, none, none⟩ { isLoading := some false } = (⟨false, none, none, none⟩, false) ∧
    setState ⟨false, none, none, none⟩ { isLoading := some true } = (⟨true, none, none, none⟩, true) ∧
    notifyCallbacks [7, 8] (setState ⟨false, none, none, none⟩ { isLoading := some true }).1
      = [(7, ⟨true, none, none, none⟩), (8, ⟨true, none, none, none⟩)] := by
  have h1 := (setState_dedup_and_notify ⟨false, none, none, none⟩ { isLoading := some false } []).1
    (by simp)
  have h2 := (setState_dedup_and_notify ⟨false, none, none, none⟩ { isLoading := some true } [7, 8]).2
    (by simp)
  exact ⟨h1, h2.1, by rw [h2.2]; rfl⟩

/-- Claim C10: `getState()` (`return { ...this.state }`) hands back a fresh
shallow copy: the returned reference is distinct from the internal state's
reference, the copy holds the same record, and writing any mutated record
through the returned reference leaves the record behind the internal
reference — hence everything subsequently returned from it — unchanged. -/
theorem getState_fresh_shallow_copy (h : ObjHeap) (self : Nat) (v : ShipInfoManagerState)
    (hv : h.lookup self = some v) (hlt : self < h.next) :
    (getState h self).2 ≠ self ∧
    (getState h self).1.lookup (getState h self).2 = some v ∧
    (getState h self).1.lookup self = some v ∧
    ∀ v', ((getState h self).1.write (getState h self).2 v').lookup self = some v := by
  have hne : self ≠ h.next := Nat.ne_of_lt hlt
  have hgs : getState h self = (⟨(h.next, v) :: h.cells, h.next + 1⟩, h.next) := by
    simp [getState, ObjHeap.alloc, hv]
  have hlookself : (ObjHeap.lookup ⟨(h.next, v) :: h.cells, h.next + 1⟩ self) = some v := by
    unfold ObjHeap.lookup at hv ⊢
    rw [List.find?_cons_of_neg _ (by simp [beq_iff_eq]; omega)]
    exact hv
  refine ⟨?_, ?_, ?_, ?_⟩
  · rw [hgs]
    omega
  · rw [hgs]
    unfold ObjHeap.lookup
    rw [List.find?_cons_of_pos _ (by simp)]
    rfl
  · rw [hgs]
    exact hlookself
  · intro v'
    rw [hgs]
    rw [ObjHeap.lookup_write_of_ne _ _ _ _ hne]
    exact hlookself

/-- Witness for C10 on a one-object heap: the copy gets reference `1 ≠ 0`,
both references dereference to the stored record, and clobbering the copy
leaves the internal record intact. -/
theorem getState_fresh_shallow_copy_witness :
    (getState ⟨[(0, ⟨true, none, some mockData, some 5⟩)], 1⟩ 0).2 ≠ 0 ∧
    (getState ⟨[(0, ⟨true, none, some mockData, some 5⟩)], 1⟩ 0).1.lookup 0
      = some ⟨true, none, some mockData, some 5⟩ ∧
    ((getState ⟨[(0, ⟨true, none, some mockData, some 5⟩)], 1⟩ 0).1.write
        (getState ⟨[(0, ⟨true, none, some mockData, some 5⟩)], 1⟩ 0).2
        ⟨false, none, none, none⟩).lookup 0
      = some ⟨true, none, some mockData, some 5⟩ := by
  have h := getState_fresh_shallow_copy ⟨[(0, ⟨true, none, some mockData, some 5⟩)], 1⟩ 0
    ⟨true, none, some mockData, some 5⟩ rfl (by decide)
  exact ⟨h.1, h.2.2.1, h.2.2.2 ⟨false, none, none, none⟩⟩

/-- Claim C1: while a load is in flight, every further `loadBookings()` call
issued before it resolves is handed the same in-flight promise, and exactly
one fetch pipeline is started for the whole burst — so all callers observe
that one pipeline's snapshot or failure.  The model is the synchronous prefix
of `loadBookings` (see `loadCall`); JS runs it atomically, and the `finally`
that clears `activeRequest` (`resolveActive`) happens only once the shared
promise settles. -/
theorem loadBookings_coalesces_inflight (n : Nat) (s : InFlight)
    (h : s.activeRequest = none) :
    (loadCall s).2 = s.nextPromise ∧
    ((loadCalls n (loadCall s).1).1).started = s.started ++ [s.nextPromise] ∧
    (loadCalls n (loadCall s).1).2 = List.replicate n s.nextPromise ∧
    ((loadCalls n (loadCall s).1).1).activeRequest = some s.nextPromise ∧
    ∀ q ∈ (loadCalls n (loadCall s).1).2, q = s.nextPromise := by
  have hc : loadCall s
      = (⟨some s.nextPromise, s.nextPromise + 1, s.started ++ [s.nextPromise]⟩, s.nextPromise) := by
    simp [loadCall, h]
  rw [hc, loadCalls_of_active n _ s.nextPromise rfl]
  refine ⟨rfl, rfl, rfl, rfl, ?_⟩
  intro q hq
  exact List.eq_of_mem_replicate hq

/-- Witness for C1: from an idle manager, a burst of one call plus three more
before resolution starts exactly the one pipeline `0` and hands promise `0`
to all three later callers. -/
theorem loadBookings_coalesces_inflight_witness :
    (loadCall ⟨none, 0, []⟩).2 = 0 ∧
    ((loadCalls 3 (loadCall ⟨none, 0, []⟩).1).1).started = [0] ∧
    (loadCalls 3 (loadCall ⟨none, 0, []⟩).1).2 = [0, 0, 0] ∧
    ((loadCalls 3 (loadCall ⟨none, 0, []⟩).1).1).activeRequest = some 0 := by
  have h := loadBookings_coalesces_inflight 3 ⟨none, 0, []⟩ rfl
  refine ⟨h.1, by simpa using h.2.1, ?_, h.2.2.2.1⟩
  rw [h.2.2.1]
  rfl

/-- Claim C7: `clearAllCache` never touches `error` or `isLoading`, and the
in-memory reset of `shipInfo`/`lastUpdated` happens only after the durable
clear succeeds: when `removeItem` rejects, the call rethrows the durable
clear's error and the manager state is fully unchanged (only the service memo,
cleared before the durable step, differs); when it succeeds, `shipInfo` and
`lastUpdated` are reset to `null` while `error` and `isLoading` keep their
previous values. -/
theorem clearAllCache_frame_and_ordering (m : BookingManager) (c : BookingCache) :
    (c.removeFails = true →
      clearAllCache m c =
        .error (.error "Failed to clear ship info cache",
          { m with service := { lastFetchedTime := none, cachedResponse := none } }, c)) ∧
    (c.removeFails = false →
      clearAllCache m c =
        .ok ({ m with
                service := { lastFetchedTime := none, cachedResponse := none },
                state := { isLoading := m.state.isLoading, error := m.state.error,
                           shipInfo := none, lastUpdated := none } },
             { c with item := none })) := by
  constructor <;> intro hrem
  · simp [clearAllCache, BookingCache.clearCache, hrem, BookingService.clearCache]
  · simp only [clearAllCache, BookingCache.clearCache, hrem, Bool.false_eq_true,
      if_false, BookingService.clearCache, setState_fst]
    rfl

/-- Witness for C7 at a concrete manager whose state has an error and is
loading: the failing durable clear leaves the state intact and rejects; the
succeeding one resets only `shipInfo`/`lastUpdated`. -/
theorem clearAllCache_frame_and_ordering_witness :
    clearAllCache ⟨⟨true, some (.error "old"), some mockData, some 7⟩, true, ⟨some 3, some mockData⟩⟩
        ⟨some (.valid ⟨mockData, 9⟩), false, false, true⟩
      = .error (.error "Failed to clear ship info cache",
          ⟨⟨true, some (.error "old"), some mockData, some 7⟩, true, ⟨none, none⟩⟩,
          ⟨some (.valid ⟨mockData, 9⟩), false, false, true⟩) ∧
    clearAllCache ⟨⟨true, some (.error "old"), some mockData, some 7⟩, true, ⟨some 3, some mockData⟩⟩
        ⟨some (.valid ⟨mockData, 9⟩), false, false, false⟩
      = .ok (⟨⟨true, some (.error "old"), none, none⟩, true, ⟨none, none⟩⟩,
             ⟨none, false, false, false⟩) := by
  exact ⟨(clearAllCache_frame_and_ordering _ _).1 rfl,
         (clearAllCache_frame_and_ordering _ _).2 rfl⟩

/-- Claim C2: when the service fetch inside a (non-coalesced) `loadBookings`
fails and the authoritative state holds no snapshot, the durable fallback
read (`ignoreExpiry = true`) decides the outcome: a recovered snapshot is
returned with state `{snapshot, isLoading:false, error:originalError}`;
otherwise the call rejects with the original error, `error` is set,
`isLoading` is false and `shipInfo` stays absent.  The fetch failure is
forced by a rejecting remote (`.error (.error msg)`, an `Error` instance as
the source's fetch layer always throws) together with an empty service memo,
which is the only way `getBookings` rejects. -/
theorem loadBookings_failure_fallback (m : BookingManager) (c : BookingCache)
    (now tEnd : Nat) (msg : String)
    (hship : m.state.shipInfo = none) (hmemo : m.service.cachedResponse = none) :
    (∀ fb c', c.getFromCache true tEnd = (some fb, c') →
      loadBookings m c now tEnd (.error (.error msg)) =
        ⟨.ok fb,
         { m with state := { isLoading := false, error := some (.error msg),
                             shipInfo := some fb, lastUpdated := m.state.lastUpdated } },
         c', [.serviceCall, .remoteFetch, .durableRead true]⟩) ∧
    (∀ c', c.getFromCache true tEnd = (none, c') →
      loadBookings m c now tEnd (.error (.error msg)) =
        ⟨.error (.error msg),
         { m with state := { isLoading := false, error := some (.error msg),
                             shipInfo := none, lastUpdated := m.state.lastUpdated } },
         c', [.serviceCall, .remoteFetch, .durableRead true]⟩) := by
  have hst0 : (setState m.state { isLoading := some true, error := some none }).1
      = ⟨true, none, none, m.state.lastUpdated⟩ := by
    rw [setState_fst]
    simp [applyPatch, hship]
  have hsvc : ∀ f : Bool, m.service.getBookings f now tEnd (.error (.error msg))
      = ⟨.error (.error msg), m.service, [.serviceCall, .remoteFetch]⟩ := by
    intro f
    rw [getBookings_of_not_memoServed _ _ _ _ _ (by simp [memoServed, hmemo])]
    simp [getBookingsFetch, hmemo]
  constructor
  · intro fb c' hfb
    cases hb : m.refreshOnLoad <;>
      simp only [loadBookings, performLoadBookings, hst0, hb, performLoadWith,
        Bool.not_false, Bool.not_true, if_true, if_false, hsvc, loadServiceCatch,
        hfb, setState_fst] <;>
      simp [applyPatch, asError]
  · intro c' hfb
    cases hb : m.refreshOnLoad <;>
      simp only [loadBookings, performLoadBookings, hst0, hb, performLoadWith,
        Bool.not_false, Bool.not_true, if_true, if_false, hsvc, loadServiceCatch,
        hfb, loadOuterCatch, handleError, setState_fst] <;>
      simp [applyPatch, asError]

/-- Witness for C2: with an empty state and memo, a rejecting remote and an
(old) durable entry yields the stale snapshot with the error recorded; with
an empty durable store the call rejects with the original error and
`shipInfo` stays absent. -/
theorem loadBookings_failure_fallback_witness :
    loadBookings ⟨⟨false, none, none, none⟩, true, ⟨none, none⟩⟩
        ⟨some (.valid ⟨mockData, 10⟩), false, false, false⟩ 5 6 (.error (.error "boom"))
      = ⟨.ok mockData,
         ⟨⟨false, some (.error "boom"), some mockData, none⟩, true, ⟨none, none⟩⟩,
         ⟨some (.valid ⟨mockData, 10⟩), false, false, false⟩,
         [.serviceCall, .remoteFetch, .durableRead true]⟩ ∧
    loadBookings ⟨⟨false, none, none, none⟩, true, ⟨none, none⟩⟩
        ⟨none, false, false, false⟩ 5 6 (.error (.error "boom"))
      = ⟨.error (.error "boom"),
         ⟨⟨false, some (.error "boom"), none, none⟩, true, ⟨none, none⟩⟩,
         ⟨none, false, false, false⟩,
         [.serviceCall, .remoteFetch, .durableRead true]⟩ := by
  exact ⟨(loadBookings_failure_fallback ⟨⟨false, none, none, none⟩, true, ⟨none, none⟩⟩
      ⟨some (.valid ⟨mockData, 10⟩), false, false, false⟩ 5 6 "boom" rfl rfl).1 mockData
      ⟨some (.valid ⟨mockData, 10⟩), false, false, false⟩ rfl,
    (loadBookings_failure_fallback ⟨⟨false, none, none, none⟩, true, ⟨none, none⟩⟩
      ⟨none, false, false, false⟩ 5 6 "boom" rfl rfl).2
      ⟨none, false, false, false⟩ rfl⟩

theorem loadOuterCatch_events (m : BookingManager) (c : BookingCache)
    (evs : List Event) (e : ErrVal) : (loadOuterCatch m c evs e).events = evs := rfl

theorem loadServiceCatch_events_append (m : BookingManager) (c : BookingCache)
    (tEnd : Nat) (evs : List Event) (e : ErrVal) :
    ∃ l, (loadServiceCatch m c tEnd evs e).events = evs ++ l := by
  unfold loadServiceCatch
  by_cases hs : m.state.shipInfo = none
  · rw [if_pos hs]
    rcases hfb : c.getFromCache true tEnd with ⟨fb?, c'⟩
    rcases fb? with _ | fb
    · exact ⟨[.durableRead true], by rw [loadOuterCatch_events]⟩
    · exact ⟨[.durableRead true], rfl⟩
  · rw [if_neg hs]
    exact ⟨[], by rw [loadOuterCatch_events, List.append_nil]⟩

theorem getBookingsFetch_events (svc : BookingService) (tEnd : Nat)
    (remote : Except ErrVal ShipInfo) :
    (getBookingsFetch svc tEnd remote).events = [.serviceCall, .remoteFetch] := by
  unfold getBookingsFetch
  rcases remote with e | r
  · rcases hc : svc.cachedResponse with _ | cc <;> simp [hc]
  · rfl

theorem performLoadWith_events_append (force : Bool) (m : BookingManager)
    (c : BookingCache) (now tEnd : Nat) (remote : Except ErrVal ShipInfo)
    (hf : (if !force then m.state.shipInfo else none) = (none : Option ShipInfo)) :
    ∃ l, (performLoadWith force m c now tEnd remote).events
        = (m.service.getBookings force now tEnd remote).events ++ l := by
  unfold performLoadWith
  rw [hf]
  rcases hso : m.service.getBookings force now tEnd remote with ⟨res, svc', evs⟩
  rcases res with e | ns
  · obtain ⟨l, hl⟩ := loadServiceCatch_events_append { m with service := svc' } c tEnd evs e
    exact ⟨l, hl⟩
  · rcases hsave : c.saveToCache ns tEnd with ec | c'
    · rcases ec with ⟨e', c'⟩
      simp only [hsave]
      obtain ⟨l, hl⟩ := loadServiceCatch_events_append { m with service := svc' } c' tEnd
        (evs ++ [.durableWrite]) e'
      exact ⟨[.durableWrite] ++ l, by rw [hl, List.append_assoc]⟩
    · simp only [hsave]
      exact ⟨[.durableWrite], rfl⟩



theorem loadOuterCatch_refresh_uniform (st : ShipInfoManagerState) (svc : BookingService)
    (c : BookingCache) (evs : List Event) (e : ErrVal) :
    ∃ r stOut svcOut cOut evsOut, ∀ b : Bool,
      loadOuterCatch ⟨st, b, svc⟩ c evs e = ⟨r, ⟨stOut, b, svcOut⟩, cOut, evsOut⟩ :=
  ⟨.error (asError e "Failed to load ship info"),
   (setState st { isLoading := some false,
                  error := some (some (asError e "Failed to load ship info")) }).1,
   svc, c, evs, fun _ => rfl⟩

theorem loadServiceCatch_refresh_uniform (st : ShipInfoManagerState) (svc : BookingService)
    (c : BookingCache) (tEnd : Nat) (evs : List Event) (e : ErrVal) :
    ∃ r stOut svcOut cOut evsOut, ∀ b : Bool,
      loadServiceCatch ⟨st, b, svc⟩ c tEnd evs e = ⟨r, ⟨stOut, b, svcOut⟩, cOut, evsOut⟩ := by
  by_cases hs : st.shipInfo = none
  · rcases hfb : c.getFromCache true tEnd with ⟨fb?, c'⟩
    rcases fb? with _ | fb
    · obtain ⟨r, stO, svcO, cO, evsO, hb⟩ :=
        loadOuterCatch_refresh_uniform st svc c' (evs ++ [.durableRead true]) e
      refine ⟨r, stO, svcO, cO, evsO, fun b => ?_⟩
      unfold loadServiceCatch
      dsimp only
      rw [if_pos hs, hfb]
      exact hb b
    · refine ⟨.ok fb, (setState st (StatePatch.mk (some false)
        (some (some (asError e "Failed to load fresh ship info"))) (some (some fb)) none)).1,
        svc, c', evs ++ [.durableRead true], fun b => ?_⟩
      unfold loadServiceCatch
      dsimp only
      rw [if_pos hs, hfb]
  · obtain ⟨r, stO, svcO, cO, evsO, hb⟩ := loadOuterCatch_refresh_uniform st svc c evs e
    refine ⟨r, stO, svcO, cO, evsO, fun b => ?_⟩
    unfold loadServiceCatch
    dsimp only
    rw [if_neg hs]
    exact hb b

theorem performLoadWith_refresh_uniform (force : Bool) (st : ShipInfoManagerState)
    (svc : BookingService) (c : BookingCache) (now tEnd : Nat)
    (remote : Except ErrVal ShipInfo) :
    ∃ r stOut svcOut cOut evsOut, ∀ b : Bool,
      performLoadWith force ⟨st, b, svc⟩ c now tEnd remote
        = ⟨r, ⟨stOut, b, svcOut⟩, cOut, evsOut⟩ := by
  rcases hf : (if !force then st.shipInfo else none) with _ | s
  · rcases hso : svc.getBookings force now tEnd remote with ⟨res, svc', evs⟩
    rcases res with e | ns
    · obtain ⟨r, stO, svcO, cO, evsO, hb⟩ :=
        loadServiceCatch_refresh_uniform st svc' c tEnd evs e
      refine ⟨r, stO, svcO, cO, evsO, fun b => ?_⟩
      unfold performLoadWith
      dsimp only
      rw [hf, hso]
      exact hb b
    · rcases hsave : c.saveToCache ns tEnd with ec | c'
      · rcases ec with ⟨e', c'⟩
        obtain ⟨r, stO, svcO, cO, evsO, hb⟩ :=
          loadServiceCatch_refresh_uniform st svc' c' tEnd (evs ++ [.durableWrite]) e'
        refine ⟨r, stO, svcO, cO, evsO, fun b => ?_⟩
        unfold performLoadWith
        dsimp only
        rw [hf, hso]
        dsimp only
        rw [hsave]
        exact hb b
      · refine ⟨.ok ns, (setState st (StatePatch.mk (some false) none
          (some (some ns)) (some (some tEnd)))).1,
          svc', c', evs ++ [.durableWrite], fun b => ?_⟩
        unfold performLoadWith
        dsimp only
        rw [hf, hso]
        dsimp only
        rw [hsave]
  · refine ⟨.ok s, (setState st (StatePatch.mk (some false) none none (some (some now)))).1,
      svc, c, [], fun b => ?_⟩
    unfold performLoadWith
    dsimp only
    rw [hf]

/-- Claim C3: `refreshBookings()` — which clears the service memo and
temporarily mutates the `refreshOnLoad` configuration flag around a reused
`loadBookings()` — is equal, result, state, store and events included, to the
spec's `refresh = clearMemo(); load(forceRefresh=true)` (`refreshSpec`); and a
non-coalesced `refreshBookings()` always contacts the remote source (the memo
was just cleared, so the DataSource memo can never serve it). -/
theorem refreshBookings_equals_clearMemo_forced_load (m : BookingManager)
    (c : BookingCache) (now tEnd : Nat) (remote : Except ErrVal ShipInfo) :
    refreshBookings m c now tEnd remote = refreshSpec m c now tEnd remote ∧
    Event.remoteFetch ∈ (refreshBookings m c now tEnd remote).events := by
  constructor
  · obtain ⟨r, stO, svcO, cO, evsO, hb⟩ := performLoadWith_refresh_uniform true
      ((setState m.state { isLoading := some true, error := some none }).1)
      (m.service.clearCache) c now tEnd remote
    have e1 : refreshBookings m c now tEnd remote
        = { performLoadWith true
              ⟨(setState m.state { isLoading := some true, error := some none }).1, true,
               m.service.clearCache⟩ c now tEnd remote with
            mgr := { (performLoadWith true
              ⟨(setState m.state { isLoading := some true, error := some none }).1, true,
               m.service.clearCache⟩ c now tEnd remote).mgr with
                refreshOnLoad := m.refreshOnLoad } } := rfl
    have e2 : refreshSpec m c now tEnd remote
        = performLoadWith true
            ⟨(setState m.state { isLoading := some true, error := some none }).1,
             m.refreshOnLoad, m.service.clearCache⟩ c now tEnd remote := rfl
    rw [e1, e2, hb true, hb m.refreshOnLoad]
  · obtain ⟨l, hl⟩ := performLoadWith_events_append true
      ⟨(setState m.state { isLoading := some true, error := some none }).1, true,
       m.service.clearCache⟩ c now tEnd remote rfl
    have hev : (refreshBookings m c now tEnd remote).events
        = ((m.service.clearCache).getBookings true now tEnd remote).events ++ l := hl
    have hfetch : ((m.service.clearCache).getBookings true now tEnd remote).events
        = [.serviceCall, .remoteFetch] := by
      rw [getBookings_of_not_memoServed (m.service.clearCache) true now tEnd remote rfl]
      exact getBookingsFetch_events _ _ _
    rw [hev, hfetch]
    simp

theorem getBookings_events_cons (svc : BookingService) (force : Bool) (now tEnd : Nat)
    (remote : Except ErrVal ShipInfo) :
    ∃ tl, (svc.getBookings force now tEnd remote).events = Event.serviceCall :: tl := by
  unfold BookingService.getBookings
  rcases hc : svc.cachedResponse with _ | cc
  · exact ⟨[.remoteFetch], getBookingsFetch_events _ _ _⟩
  · rcases ht : svc.lastFetchedTime with _ | t
    · exact ⟨[.remoteFetch], getBookingsFetch_events _ _ _⟩
    · dsimp only
      by_cases hg : (t != 0 && !force && decide (now - t < dataTTL)) = true
      · refine ⟨[], ?_⟩
        rw [if_pos hg]
      · refine ⟨[.remoteFetch], ?_⟩
        rw [if_neg hg]
        exact getBookingsFetch_events _ _ _

/-- Amended C8: on a non-coalesced, non-fast-path `loadBookings()` call the
manager does NOT consult the durable cache before the DataSource: the
DataSource call is the first pipeline action (the head of the event trace),
regardless of what the durable cache holds; the durable cache is only written
after a successful fetch and only read — ignoring expiry — inside the failure
fallback. -/
theorem loadBookings_service_first (m : BookingManager) (c : BookingCache)
    (now tEnd : Nat) (remote : Except ErrVal ShipInfo)
    (h : m.refreshOnLoad = true ∨ m.state.shipInfo = none) :
    (loadBookings m c now tEnd remote).events.head? = some Event.serviceCall := by
  have hst0 : ((setState m.state { isLoading := some true, error := some none }).1).shipInfo
      = m.state.shipInfo := by
    rw [setState_fst]
    rfl
  have hf : (if !m.refreshOnLoad then
      ((setState m.state { isLoading := some true, error := some none }).1).shipInfo
      else none) = (none : Option ShipInfo) := by
    rcases h with h | h
    · simp [h]
    · rw [hst0, h]
      cases m.refreshOnLoad <;> simp
  obtain ⟨l, hl⟩ := performLoadWith_events_append m.refreshOnLoad
    ⟨(setState m.state { isLoading := some true, error := some none }).1, m.refreshOnLoad,
     m.service⟩ c now tEnd remote hf
  have hev : (loadBookings m c now tEnd remote).events
      = (m.service.getBookings m.refreshOnLoad now tEnd remote).events ++ l := hl
  obtain ⟨tl, htl⟩ := getBookings_events_cons m.service m.refreshOnLoad now tEnd remote
  rw [hev, htl]
  rfl

/-- Witness for the amended C8 at the same input as the counterexample: the
durable cache holds a fresh entry, yet the first pipeline action of
`loadBookings` is the DataSource call. -/
theorem loadBookings_service_first_witness :
    (loadBookings ⟨⟨false, none, none, none⟩, true, ⟨none, none⟩⟩
      ⟨some (.valid ⟨mockData, 1000⟩), false, false, false⟩ 1500 1600
      (.ok mockData)).events.head? = some Event.serviceCall :=
  loadBookings_service_first ⟨⟨false, none, none, none⟩, true, ⟨none, none⟩⟩
    ⟨some (.valid ⟨mockData, 1000⟩), false, false, false⟩ 1500 1600 (.ok mockData)
    (Or.inl rfl)

/-- Counterexample to C8 as stated: with an idle manager (default
`refreshOnLoad = true`), an empty service memo, and a durable cache holding a
FRESH entry (`isCacheExpired 1500 1000 = false`, so the durable cache could
satisfy the request), a non-coalesced, non-fast-path `loadBookings()` still
calls the DataSource and fetches remotely, and the event trace contains no
durable-cache read at all — the durable cache is not checked before the
DataSource in the success pipeline. -/
theorem loadBookings_no_durable_precheck_cex :
    isCacheExpired 1500 1000 = false ∧
    (loadBookings ⟨⟨false, none, none, none⟩, true, ⟨none, none⟩⟩
        ⟨some (.valid ⟨mockData, 1000⟩), false, false, false⟩ 1500 1600
        (.ok mockData)).events
      = [.serviceCall, .remoteFetch, .durableWrite] :=
  ⟨rfl, rfl⟩
